import Mathlib

/-!
Shallow embedding of the liveness-monitor bot (src/bot.py) together with theorems
checking the specification's claims.

Modelling conventions:
* Timestamps and durations are integers (minutes); pd.Timedelta(minutes=10) is the
  integer 10.
* A queried last-update value is an Option Int; none models a missing value (pandas
  NaT), whose order comparisons evaluate to false in pandas.
* Exceptions are modelled with Except; the per-cycle body returns its observable
  effects (counts of message sends and remediation invocations) together with the
  exception, if any, that propagates out of it.
-/

namespace AlertBot

/-- The SPECIAL_CHARS list of escape_markdown, in source order.  Char.ofNat 96 is the
backquote character and Char.ofNat 123 / Char.ofNat 125 are the curly braces. -/
def SPECIAL_CHARS : List Char :=
  ['\\', '_', '*', '[', ']', '(', ')', '~', Char.ofNat 96, '>', '<', '&', '#',
   '+', '-', '=', '|', Char.ofNat 123, Char.ofNat 125, '.', '!']

/-- escape_markdown from src/bot.py: the join of one piece per character of the
input, where a piece is the character prefixed by a backslash when it belongs to
SPECIAL_CHARS and the character alone otherwise. -/
def escape_markdown (text : String) : String :=
  String.join (text.data.map (fun c =>
    if SPECIAL_CHARS.contains c then String.mk ['\\', c] else String.mk [c]))

/-- Removing one escape character before each escaped character: the inverse
direction used to state reversibility of escape_markdown. -/
def unescape : List Char → List Char
  | [] => []
  | [c] => [c]
  | a :: b :: rest =>
    if a = '\\' then b :: unescape rest else a :: unescape (b :: rest)

/-- The per-character mapping of escape_markdown, at the level of character lists. -/
def escChar (c : Char) : List Char :=
  if c ∈ SPECIAL_CHARS then ['\\', c] else [c]

lemma foldl_append_data (L : List String) (a : String) :
    (L.foldl (fun r s => r ++ s) a).data = a.data ++ (L.map String.data).flatten := by
  induction L generalizing a with
  | nil => simp
  | cons x xs ih => simp [List.foldl, ih, String.data_append]

lemma escape_markdown_data (s : String) :
    (escape_markdown s).data = s.data.flatMap escChar := by
  unfold escape_markdown String.join
  rw [foldl_append_data]
  induction s.data with
  | nil => rfl
  | cons c rest ih =>
    by_cases hc : c ∈ SPECIAL_CHARS <;>
      simp_all [escChar, List.flatMap_cons, String.mk]

lemma backslash_mem_special : '\\' ∈ SPECIAL_CHARS := by decide

lemma unescape_cons_ne (c : Char) (hc : c ≠ '\\') (X : List Char) :
    unescape (c :: X) = c :: unescape X := by
  cases X with
  | nil => simp [unescape]
  | cons b bs => simp [unescape, hc]

lemma unescape_flatMap (l : List Char) : unescape (l.flatMap escChar) = l := by
  induction l with
  | nil => rfl
  | cons c rest ih =>
    by_cases hc : c ∈ SPECIAL_CHARS
    · simp [List.flatMap_cons, escChar, hc, unescape, ih]
    · have hcne : c ≠ '\\' := fun h => hc (h ▸ backslash_mem_special)
      simp [List.flatMap_cons, escChar, hc, unescape_cons_ne c hcne, ih]

lemma flatMap_escChar_length (l : List Char) :
    (l.flatMap escChar).length = l.length + l.countP (fun c => decide (c ∈ SPECIAL_CHARS)) := by
  induction l with
  | nil => rfl
  | cons c rest ih =>
    by_cases hc : c ∈ SPECIAL_CHARS <;>
      simp [List.flatMap_cons, escChar, hc, ih, List.countP_cons] <;> omega

/-- C7: escape_markdown maps each occurrence of a character of the reserved set
SPECIAL_CHARS to that character prefixed with a backslash, and leaves every other
character unchanged, preserving order. -/
theorem escape_markdown_spec (s : String) :
    (escape_markdown s).data =
      s.data.flatMap (fun c => if c ∈ SPECIAL_CHARS then ['\\', c] else [c]) :=
  escape_markdown_data s

/-- C8: escaping is reversible: removing one escape before each character recovers
the original string, escape_markdown is injective, and the output contains exactly
one extra (escape) character per reserved-character occurrence of the input. -/
theorem escape_markdown_reversible :
    (∀ s : String, unescape (escape_markdown s).data = s.data) ∧
    Function.Injective escape_markdown ∧
    (∀ s : String, (escape_markdown s).length =
      s.length + s.data.countP (fun c => decide (c ∈ SPECIAL_CHARS))) := by
  refine ⟨?_, ?_, ?_⟩
  · intro s
    rw [escape_markdown_data, unescape_flatMap]
  · intro a b h
    have hd := congrArg String.data h
    rw [escape_markdown_data, escape_markdown_data] at hd
    have hdata : a.data = b.data := by
      have h2 := congrArg unescape hd
      rwa [unescape_flatMap, unescape_flatMap] at h2
    exact String.ext hdata
  · intro s
    show (escape_markdown s).data.length = s.data.length + _
    rw [escape_markdown_data, flatMap_escChar_length]

/-- A label containing every reserved character. -/
def allSpecials : String := String.mk SPECIAL_CHARS

/-- Witness for C8: the label containing every reserved character round-trips, and
its escaped form has exactly one escape per occurrence (21 + 21 characters). -/
theorem escape_markdown_reversible_witness :
    unescape (escape_markdown allSpecials).data = allSpecials.data ∧
    (escape_markdown allSpecials).length = 42 := by
  refine ⟨escape_markdown_reversible.1 allSpecials, ?_⟩
  have h := escape_markdown_reversible.2.2 allSpecials
  rw [h]
  decide

/-! Staleness evaluation (src/bot.py lines 169-178). -/

/-- Pandas order comparison of a possibly missing timestamp against a bound: a
missing value (NaT) compares false, a present value compares as an integer. -/
def pandas_lt : Option Int → Int → Bool
  | none, _ => false
  | some t, x => decide (t < x)

/-- The staleness threshold hardcoded in the source: pd.Timedelta(minutes=10). -/
def THRESHOLD_MINUTES : Int := 10

/-- The staleness comparison of src/bot.py line 175: the queried last-update value
is compared against now minus the threshold (datetime_minutes_ago). -/
def stale_check (last_update : Option Int) (now threshold : Int) : Bool :=
  pandas_lt last_update (now - threshold)

/-! The instrument registry (src/bot.py lines 46-114), a label-to-table mapping in
insertion order: the Binance FutT block, then the BitMEX block, then the Crypto
block. -/

def binance_futT_insts : List String :=
  ["ADAUSDT", "BNBUSDT", "BTCUSDT", "DOGEUSDT", "ETHUSDT", "FTMUSDT", "LINKUSDT",
   "NEARUSDT", "SOLUSDT", "XRPUSDT", "WIFUSDT", "NOTUSDT", "SUIUSDT", "RAREUSDT"]

def bitmex_insts : List String :=
  ["XBTUSDT", "ETHUSDT", "SOLUSDT"]

def crypto_insts : List (String × String) :=
  [("BTCUSD_PERP", "Fut"), ("ETHUSD_PERP", "Fut"), ("SOLUSD_PERP", "Fut"),
   ("XRPUSD_PERP", "Fut"), ("BTC_USD", "Spt"), ("ETH_USD", "Spt"),
   ("SOL_USD", "Spt"), ("XRP_USD", "Spt")]

/-- The instruments dictionary: label paired with the ClickHouse table name, in the
iteration order of the Python dict (insertion order). -/
def instruments : List (String × String) :=
  (binance_futT_insts.map (fun inst =>
    (inst ++ " (FutT)", "BinanceFutT_" ++ inst ++ "_Binance_FutT_PERPETUAL")))
  ++ (bitmex_insts.map (fun inst =>
    (inst ++ " (Fut)", "BitMEX_" ++ inst ++ "_BitMEX_PERP")))
  ++ (crypto_insts.map (fun p =>
    (p.1 ++ " (" ++ p.2 ++ ")",
     "Crypto_" ++ p.1 ++ "_Crypto_" ++ p.2 ++ "_" ++
       (if p.2 = "Spt" then "SPOT" else "PERP"))))

/-! The monitoring cycle (src/bot.py lines 157-194). -/

/-- Per-cycle external environment: the data-source query (which may raise), the
current time, whether bot.send_message succeeds, the exit status of the remediation
script, and the wall time the cycle's work takes. -/
structure CycleEnv where
  q : String → Except Unit (Option Int)
  now : Int
  sendOk : Bool
  remExit : Int
  duration : Int

/-- An exception propagating out of the cycle body: a data-source query failure
(carrying the table whose query raised) or a Telegram channel error from
send_message. -/
inductive CycleExn where
  | dataSource (table : String)
  | channel
deriving DecidableEq, Repr

/-- The observable effects of one cycle: the failed_instruments list as computed,
the number of send_message calls made, the number of remediation invocations, and
whether a remediation failure was logged. -/
structure CycleResult where
  failed : List String
  sendCount : Nat
  remCount : Nat
  remFailureLogged : Bool
deriving DecidableEq, Repr

/-- The query loop of alert_if_instrument_inactive (lines 169-178): instruments are
queried in registry order; a raising query aborts the whole loop (there is no
per-instrument handler), discarding the partial list; otherwise the instrument is
appended when its staleness comparison is true. -/
def collect_failed (q : String → Except Unit (Option Int)) (now : Int) :
    List (String × String) → Except String (List String)
  | [] => Except.ok []
  | (inst, table) :: rest =>
    match q table with
    | Except.error _ => Except.error table
    | Except.ok v =>
      match collect_failed q now rest with
      | Except.error t => Except.error t
      | Except.ok fs =>
        Except.ok ((if stale_check v now THRESHOLD_MINUTES then [inst] else []) ++ fs)

/-- One execution of alert_if_instrument_inactive (lines 157-194): build the failed
list (a query failure propagates); when it is non-empty, send the alert (a channel
failure propagates, before remediation), then run the remediation script once,
logging—without re-raising—a non-zero exit. -/
def alert_cycle (env : CycleEnv) (reg : List (String × String)) :
    CycleResult × Option CycleExn :=
  match collect_failed env.q env.now reg with
  | Except.error t => (⟨[], 0, 0, false⟩, some (CycleExn.dataSource t))
  | Except.ok failed =>
    if failed.isEmpty then
      (⟨failed, 0, 0, false⟩, none)
    else if env.sendOk then
      (⟨failed, 1, 1, decide (env.remExit ≠ 0)⟩, none)
    else
      (⟨failed, 1, 0, false⟩, some CycleExn.channel)

/-! The scheduler loop (src/bot.py lines 197-238). -/

/-- The fixed cycle interval of the source, in seconds: 60 * 10. -/
def seconds : Int := 60 * 10

/-- Line 229: the next-run deadline is the cycle's start time plus the interval. -/
def next_run_time (start interval : Int) : Int := start + interval

/-- Line 230: the loop sleeps for max(0, next_run_time - now). -/
def sleep_time (start now interval : Int) : Int :=
  max 0 (next_run_time start interval - now)

/-- The start time of the next cycle, for a cycle starting at t0 whose work takes
duration d: the current time after the work (t0 + d) plus the sleep. -/
def next_cycle_start (t0 d interval : Int) : Int :=
  (t0 + d) + sleep_time t0 (t0 + d) interval

/-- The start time of the k-th cycle of the loop, given each cycle's work
duration, anchored at the loop's first start time t0. -/
def cycle_start (envs : Nat → CycleEnv) (t0 : Int) : Nat → Int
  | 0 => t0
  | k + 1 => next_cycle_start (cycle_start envs t0 k) (envs k).duration seconds

/-- The while-True loop of main (lines 222-234), truncated to fuel iterations,
started at cycle index k: each cycle runs alert_if_instrument_inactive; an
exception propagating out of the cycle body ends the loop (it is caught by the
handlers of lines 235-238).  Returns the number of completed cycles and the
exception that ended the loop, if any. -/
def runLoop (reg : List (String × String)) (envs : Nat → CycleEnv) :
    Nat → Nat → Nat × Option CycleExn
  | 0, k => (k, none)
  | fuel + 1, k =>
    match (alert_cycle (envs k) reg).2 with
    | some e => (k, some e)
    | none => runLoop reg envs fuel (k + 1)

/-- The scheduler states of the design: running (loop still live when the fuel ran
out), stopped (external cancellation) and crashed (an error ended the process). -/
inductive MainState where
  | running
  | stopped
  | crashed
deriving DecidableEq, Repr

/-- The outcome of main: the final state, how many cycles completed, how many
times the startup confirmation send was attempted, and whether the monitoring
loop was entered at all. -/
structure MainResult where
  state : MainState
  cyclesCompleted : Nat
  startupSendAttempts : Nat
  loopEntered : Bool
deriving DecidableEq, Repr

/-- main (lines 197-238): the startup block (get_me plus the confirmation send) is
attempted exactly once; on TelegramError main logs and returns before the loop
(the design's Crashed state); otherwise the monitoring loop runs, and an
exception propagating out of a cycle ends it. -/
def mainRun (startupOk : Bool) (reg : List (String × String))
    (envs : Nat → CycleEnv) (fuel : Nat) : MainResult :=
  if startupOk then
    match runLoop reg envs fuel 0 with
    | (k, some _) => ⟨MainState.crashed, k, 1, true⟩
    | (k, none) => ⟨MainState.running, k, 1, true⟩
  else
    ⟨MainState.crashed, 0, 1, false⟩

/-! Claim C1: staleness semantics. -/

/-- C1 counterexample: when the data source returns no last-update value (pandas
NaT), the source's comparison evaluates to false, so the instrument is NOT marked
stale at now = 1000, threshold = 10 — contradicting the claim that is_stale is
true whenever the last-update is absent. -/
theorem stale_check_absent_cex : ¬ (stale_check none 1000 10 = true) := by
  decide

/-- C1 amended: for a present last-update t, is_stale equals the strict comparison
now - t > threshold; for an absent last-update the pandas comparison is false, so
the instrument is not marked stale (fail-open, not fail-safe). -/
theorem stale_check_amended :
    (∀ t now T : Int, stale_check (some t) now T = decide (T < now - t)) ∧
    (∀ now T : Int, stale_check none now T = false) := by
  constructor
  · intro t now T
    simp only [stale_check, pandas_lt]
    exact decide_eq_decide.mpr (by omega)
  · intro now T
    rfl

/-! Claim C3: deadline anchoring of the scheduler. -/

/-- C3: the loop sleeps exactly max(0, deadline - now) with deadline = t0 +
interval; when the cycle's work duration d is smaller than the interval the next
cycle starts exactly one interval after t0; when d is at least the interval the
sleep is zero and the next cycle starts immediately; hence consecutive loop cycle
start times are exactly one interval (600 seconds) apart whenever the work takes
less than the interval. -/
theorem scheduler_deadline_anchoring (t0 d I : Int) :
    sleep_time t0 (t0 + d) I = max 0 (next_run_time t0 I - (t0 + d)) ∧
    (d < I → next_cycle_start t0 d I = t0 + I) ∧
    (I ≤ d → sleep_time t0 (t0 + d) I = 0 ∧ next_cycle_start t0 d I = t0 + d) ∧
    (∀ envs : Nat → CycleEnv, ∀ k : Nat, ∀ s : Int, (envs k).duration < seconds →
      cycle_start envs s (k + 1) = cycle_start envs s k + seconds) := by
  refine ⟨rfl, ?_, ?_, ?_⟩
  · intro h
    simp only [next_cycle_start, sleep_time, next_run_time]
    omega
  · intro h
    refine ⟨?_, ?_⟩ <;> simp only [next_cycle_start, sleep_time, next_run_time] <;> omega
  · intro envs k s h
    simp only [cycle_start, next_cycle_start, sleep_time, next_run_time, seconds] at h ⊢
    omega

/-- Witness for C3: with interval 600, a 3-second cycle leads to a next start
exactly 600 seconds later, and a 900-second cycle sleeps zero. -/
theorem scheduler_deadline_anchoring_witness :
    ((3 : Int) < 600 ∧ next_cycle_start 0 3 600 = 0 + 600) ∧
    ((600 : Int) ≤ 900 ∧ sleep_time 0 (0 + 900) 600 = 0) :=
  ⟨⟨by decide, (scheduler_deadline_anchoring 0 3 600).2.1 (by decide)⟩,
   ⟨by decide, ((scheduler_deadline_anchoring 0 900 600).2.2.1 (by decide)).1⟩⟩

/-! Claim C4: report construction. -/

lemma collect_failed_ok (q : String → Option Int) (now : Int)
    (reg : List (String × String)) :
    collect_failed (fun t => Except.ok (q t)) now reg =
      Except.ok
        ((reg.filter (fun p => stale_check (q p.2) now THRESHOLD_MINUTES)).map Prod.fst) := by
  induction reg with
  | nil => rfl
  | cons p rest ih =>
    obtain ⟨i, t⟩ := p
    by_cases h : stale_check (q t) now THRESHOLD_MINUTES <;>
      simp [collect_failed, ih, List.filter_cons, h]

/-- C4: with every query succeeding, the failed list is exactly the registry
filtered to stale entries, in registry order; it is empty iff no result is stale;
its length is the count of stale results; and the alert send happens iff some
result is stale. -/
theorem report_characterization (reg : List (String × String))
    (q : String → Option Int) (now rexit dur : Int) :
    collect_failed (fun t => Except.ok (q t)) now reg =
      Except.ok
        ((reg.filter (fun p => stale_check (q p.2) now THRESHOLD_MINUTES)).map Prod.fst) ∧
    (((reg.filter (fun p => stale_check (q p.2) now THRESHOLD_MINUTES)).map Prod.fst) = []
      ↔ ∀ p ∈ reg, stale_check (q p.2) now THRESHOLD_MINUTES = false) ∧
    ((reg.filter (fun p => stale_check (q p.2) now THRESHOLD_MINUTES)).map Prod.fst).length
      = reg.countP (fun p => stale_check (q p.2) now THRESHOLD_MINUTES) ∧
    ((alert_cycle ⟨fun t => Except.ok (q t), now, true, rexit, dur⟩ reg).1.sendCount = 0
      ↔ ∀ p ∈ reg, stale_check (q p.2) now THRESHOLD_MINUTES = false) := by
  have h1 := collect_failed_ok q now reg
  have h2 : ((reg.filter (fun p => stale_check (q p.2) now THRESHOLD_MINUTES)).map Prod.fst) = []
      ↔ ∀ p ∈ reg, stale_check (q p.2) now THRESHOLD_MINUTES = false := by
    simp [List.filter_eq_nil_iff]
  refine ⟨h1, h2, ?_, ?_⟩
  · rw [List.length_map, List.countP_eq_length_filter]
  · rw [← h2]
    by_cases hfs :
        ((reg.filter (fun p => stale_check (q p.2) now THRESHOLD_MINUTES)).map Prod.fst) = [] <;>
      simp [alert_cycle, h1, hfs]

/-! Claim C2: per-instrument data-source failure. -/

def lblI1 : String := "I1"
def lblI2 : String := "I2"
def tblT1 : String := "T1"
def tblT2 : String := "T2"

/-- A cycle environment in which the query for table T2 succeeds with a fresh
timestamp and every other query raises. -/
def cex2Env : CycleEnv :=
  ⟨fun t => if t = tblT2 then Except.ok (some 1000) else Except.error (),
   1001, true, 0, 0⟩

def cex2Reg : List (String × String) := [(lblI1, tblT1), (lblI2, tblT2)]

/-- C2 counterexample: with two instruments where the first query raises and the
second succeeds fresh, the cycle is aborted (no report, nothing evaluated as
stale, no send) and the monitoring loop terminates with zero completed cycles —
contradicting the claim that the cycle is not aborted and X is recorded stale. -/
theorem query_failure_aborts_cycle_cex :
    alert_cycle cex2Env cex2Reg = (⟨[], 0, 0, false⟩, some (CycleExn.dataSource tblT1)) ∧
    runLoop cex2Reg (fun _ => cex2Env) 2 0 = (0, some (CycleExn.dataSource tblT1)) ∧
    mainRun true cex2Reg (fun _ => cex2Env) 2 = ⟨MainState.crashed, 0, 1, true⟩ := by
  refine ⟨?_, ?_, ?_⟩ <;> rfl

lemma collect_failed_error_at (q : String → Except Unit (Option Int)) (now : Int)
    (pre post : List (String × String)) (i t : String)
    (hpre : ∀ p ∈ pre, ∃ v, q p.2 = Except.ok v)
    (ht : q t = Except.error ()) :
    collect_failed q now (pre ++ (i, t) :: post) = Except.error t := by
  induction pre with
  | nil => simp [collect_failed, ht]
  | cons p rest ih =>
    obtain ⟨a, b⟩ := p
    obtain ⟨v, hv⟩ := hpre (a, b) (by simp)
    have hr := ih (fun p hp => hpre p (by simp [hp]))
    simp [collect_failed, hv, hr]

/-- C2 corrected: a data-source query failure for one instrument, with all earlier
queries succeeding, aborts the whole cycle: the partial evaluation is discarded
(empty failed list, no send, no remediation), the exception propagates, and the
monitoring loop terminates at that cycle with no further cycles — the failing
instrument is not recorded as stale and no report is produced. -/
theorem query_failure_aborts_cycle
    (pre post : List (String × String)) (i t : String) (env : CycleEnv)
    (envs : Nat → CycleEnv) (fuel k : Nat)
    (hpre : ∀ p ∈ pre, ∃ v, env.q p.2 = Except.ok v)
    (ht : env.q t = Except.error ())
    (he : envs k = env) :
    alert_cycle env (pre ++ (i, t) :: post) =
      (⟨[], 0, 0, false⟩, some (CycleExn.dataSource t)) ∧
    runLoop (pre ++ (i, t) :: post) envs (fuel + 1) k = (k, some (CycleExn.dataSource t)) := by
  have hc := collect_failed_error_at env.q env.now pre post i t hpre ht
  have h1 : alert_cycle env (pre ++ (i, t) :: post) =
      (⟨[], 0, 0, false⟩, some (CycleExn.dataSource t)) := by
    simp [alert_cycle, hc]
  exact ⟨h1, by simp [runLoop, he, h1]⟩

/-- Witness for the corrected C2: the concrete two-instrument registry with the
succeeding instrument first still aborts at the raising query. -/
theorem query_failure_aborts_cycle_witness :
    runLoop [(lblI2, tblT2), (lblI1, tblT1)] (fun _ => cex2Env) 2 0 =
      (0, some (CycleExn.dataSource tblT1)) :=
  (query_failure_aborts_cycle [(lblI2, tblT2)] [] lblI1 tblT1 cex2Env
    (fun _ => cex2Env) 1 0
    (by
      intro p hp
      simp only [List.mem_singleton] at hp
      subst hp
      exact ⟨some 1000, rfl⟩)
    rfl rfl).2

/-! Claim C5: channel error during a later send. -/

def reg1 : List (String × String) := [(lblI1, tblT1)]

/-- A cycle environment with one stale instrument and a failing send_message. -/
def cex5Env : CycleEnv := ⟨fun _ => Except.ok (some 0), 1000, false, 0, 0⟩

/-- C5 counterexample: with one stale instrument and send_message raising a
channel error, the cycle does not complete (remediation skipped) and the
monitoring loop terminates at once with zero completed cycles — contradicting the
claim that the loop continues and the next cycle is scheduled. -/
theorem send_failure_stops_loop_cex :
    alert_cycle cex5Env reg1 = (⟨[lblI1], 1, 0, false⟩, some CycleExn.channel) ∧
    runLoop reg1 (fun _ => cex5Env) 2 0 = (0, some CycleExn.channel) ∧
    mainRun true reg1 (fun _ => cex5Env) 2 = ⟨MainState.crashed, 0, 1, true⟩ := by
  refine ⟨?_, ?_, ?_⟩ <;> rfl

/-- C5 corrected: when a later send fails with a channel error (with a non-empty
failed list), the error propagates out of the cycle: remediation is not invoked,
the cycle does not complete, and the monitoring loop terminates at that cycle
(the error is logged by the catch-all handler and no further cycle runs). -/
theorem send_failure_stops_loop (env : CycleEnv) (reg : List (String × String))
    (fs : List String) (envs : Nat → CycleEnv) (fuel k : Nat)
    (hc : collect_failed env.q env.now reg = Except.ok fs)
    (hne : fs ≠ [])
    (hs : env.sendOk = false)
    (he : envs k = env) :
    alert_cycle env reg = (⟨fs, 1, 0, false⟩, some CycleExn.channel) ∧
    runLoop reg envs (fuel + 1) k = (k, some CycleExn.channel) := by
  have h1 : alert_cycle env reg = (⟨fs, 1, 0, false⟩, some CycleExn.channel) := by
    cases fs with
    | nil => exact absurd rfl hne
    | cons a l => simp [alert_cycle, hc, hs]
  exact ⟨h1, by simp [runLoop, he, h1]⟩

/-- Witness for the corrected C5, at the concrete one-instrument environment. -/
theorem send_failure_stops_loop_witness :
    runLoop reg1 (fun _ => cex5Env) 3 0 = (0, some CycleExn.channel) :=
  (send_failure_stops_loop cex5Env reg1 [lblI1] (fun _ => cex5Env) 2 0 rfl
    (List.cons_ne_nil _ _) rfl rfl).2

/-! Claim C6: remediation is bounded and non-escalating. -/

lemma collect_failed_exists_ok (q : String → Except Unit (Option Int)) (now : Int)
    (reg : List (String × String))
    (hq : ∀ p ∈ reg, ∃ v, q p.2 = Except.ok v) :
    ∃ fs, collect_failed q now reg = Except.ok fs := by
  induction reg with
  | nil => exact ⟨[], rfl⟩
  | cons p rest ih =>
    obtain ⟨i, t⟩ := p
    obtain ⟨v, hv⟩ := hq (i, t) (by simp)
    obtain ⟨fs, hfs⟩ := ih (fun p hp => hq p (by simp [hp]))
    refine ⟨(if stale_check v now THRESHOLD_MINUTES then [i] else []) ++ fs, ?_⟩
    simp [collect_failed, hv, hfs]

lemma runLoop_step (reg : List (String × String)) (envs : Nat → CycleEnv)
    (fuel k : Nat) (h : (alert_cycle (envs k) reg).2 = none) :
    runLoop reg envs (fuel + 1) k = runLoop reg envs fuel (k + 1) := by
  simp [runLoop, h]

lemma cycle_start_duration_only (envs envs' : Nat → CycleEnv) (t0 : Int)
    (h : ∀ j, (envs j).duration = (envs' j).duration) :
    ∀ n, cycle_start envs t0 n = cycle_start envs' t0 n := by
  intro n
  induction n with
  | zero => rfl
  | succ k ih => simp [cycle_start, ih, h k]

/-- C6: in a cycle whose queries and send succeed, remediation is invoked at most
once, exactly when the failed list is non-empty; a non-zero remediation exit is
only logged (no retry, no second send, no exception), the cycle completes, the
loop proceeds to the next cycle, and the cycle start schedule depends only on the
cycle durations (never on remediation outcomes). -/
theorem remediation_bounded (env : CycleEnv) (reg : List (String × String))
    (hq : ∀ p ∈ reg, ∃ v, env.q p.2 = Except.ok v)
    (hs : env.sendOk = true) :
    (alert_cycle env reg).2 = none ∧
    (alert_cycle env reg).1.remCount ≤ 1 ∧
    ((alert_cycle env reg).1.remCount = 1 ↔ (alert_cycle env reg).1.failed ≠ []) ∧
    (alert_cycle env reg).1.sendCount ≤ 1 ∧
    ((alert_cycle env reg).1.remFailureLogged = true ↔
      (env.remExit ≠ 0 ∧ (alert_cycle env reg).1.failed ≠ [])) ∧
    (∀ envs : Nat → CycleEnv, ∀ fuel k : Nat, envs k = env →
      runLoop reg envs (fuel + 1) k = runLoop reg envs fuel (k + 1)) ∧
    (∀ envs envs' : Nat → CycleEnv, ∀ t0 : Int,
      (∀ j, (envs j).duration = (envs' j).duration) →
      ∀ n, cycle_start envs t0 n = cycle_start envs' t0 n) := by
  obtain ⟨fs, hfs⟩ := collect_failed_exists_ok env.q env.now reg hq
  cases fs with
  | nil =>
    have h1 : alert_cycle env reg = (⟨[], 0, 0, false⟩, none) := by
      simp [alert_cycle, hfs]
    refine ⟨by rw [h1], by simp [h1], by rw [h1]; simp, by simp [h1], by rw [h1]; simp,
      ?_, cycle_start_duration_only⟩
    intro envs fuel k he
    exact runLoop_step reg envs fuel k (by rw [he, h1])
  | cons a l =>
    have h1 : alert_cycle env reg =
        (⟨a :: l, 1, 1, decide (env.remExit ≠ 0)⟩, none) := by
      simp [alert_cycle, hfs, hs]
    refine ⟨by rw [h1], by simp [h1], by rw [h1]; simp, by simp [h1], by rw [h1]; simp,
      ?_, cycle_start_duration_only⟩
    intro envs fuel k he
    exact runLoop_step reg envs fuel k (by rw [he, h1])

/-- A cycle environment with one stale instrument, a succeeding send, and a
remediation script exiting non-zero. -/
def cex6Env : CycleEnv := ⟨fun _ => Except.ok (some 0), 1000, true, 1, 0⟩

/-- Witness for C6: with a failing remediation script the cycle still completes
without an exception and remediation ran at most once. -/
theorem remediation_bounded_witness :
    (alert_cycle cex6Env reg1).2 = none ∧ (alert_cycle cex6Env reg1).1.remCount ≤ 1 := by
  have h := remediation_bounded cex6Env reg1 (by intro p hp; exact ⟨some 0, rfl⟩) rfl
  exact ⟨h.1, h.2.1⟩

/-! Claim C9: startup failure is fatal and pre-loop. -/

def trivEnv : CycleEnv := ⟨fun _ => Except.ok none, 0, true, 0, 0⟩

/-- C9: if the startup block (channel initialization plus the one-time startup
confirmation send) fails, main goes directly to the Crashed state with the
startup send attempted exactly once (no retry) and the monitoring loop never
entered — zero cycles run. -/
theorem startup_failure_no_cycles (su : Bool) (reg : List (String × String))
    (envs : Nat → CycleEnv) (fuel : Nat) (h : su = false) :
    mainRun su reg envs fuel = ⟨MainState.crashed, 0, 1, false⟩ := by
  subst h
  rfl

/-- Witness for C9 at a concrete registry and fuel. -/
theorem startup_failure_no_cycles_witness :
    mainRun false [] (fun _ => trivEnv) 3 = ⟨MainState.crashed, 0, 1, false⟩ :=
  startup_failure_no_cycles false [] (fun _ => trivEnv) 3 rfl

/-! Claim C10: the send strictly precedes remediation. -/

/-- C10: with a non-empty failed list, if the send raises then the send was
attempted, remediation is never invoked and the channel error propagates; and
remediation is invoked only when the send has returned without raising. -/
theorem send_precedes_remediation (env : CycleEnv) (reg : List (String × String))
    (fs : List String)
    (hc : collect_failed env.q env.now reg = Except.ok fs)
    (hne : fs ≠ []) :
    (env.sendOk = false →
      (alert_cycle env reg).1.sendCount = 1 ∧
      (alert_cycle env reg).1.remCount = 0 ∧
      (alert_cycle env reg).2 = some CycleExn.channel) ∧
    ((alert_cycle env reg).1.remCount = 1 →
      env.sendOk = true ∧ (alert_cycle env reg).1.sendCount = 1) := by
  cases fs with
  | nil => exact absurd rfl hne
  | cons a l =>
    constructor
    · intro hs
      have h1 : alert_cycle env reg = (⟨a :: l, 1, 0, false⟩, some CycleExn.channel) := by
        simp [alert_cycle, hc, hs]
      simp [h1]
    · intro hr
      cases hsk : env.sendOk with
      | true =>
        have h1 : alert_cycle env reg =
            (⟨a :: l, 1, 1, decide (env.remExit ≠ 0)⟩, none) := by
          simp [alert_cycle, hc, hsk]
        simp [h1]
      | false =>
        have h1 : alert_cycle env reg = (⟨a :: l, 1, 0, false⟩, some CycleExn.channel) := by
          simp [alert_cycle, hc, hsk]
        rw [h1] at hr
        exact absurd hr (by simp)

/-- Witness for C10: at the concrete failing-send environment, remediation is not
invoked. -/
theorem send_precedes_remediation_witness :
    (alert_cycle cex5Env reg1).1.remCount = 0 :=
  ((send_precedes_remediation cex5Env reg1 [lblI1] rfl (List.cons_ne_nil _ _)).1 rfl).2.1

end AlertBot
